import Mathlib

set_option linter.unusedVariables false

/-!
Verification of the `jsonschema` type-checking registry (`jsonschema/_types.py`).

The registry (`TypeChecker`) wraps an immutable mapping from type names to
predicate functions, backed in the source by a `pyrsistent.pmap` held in a
frozen `attr` class.  We embed that mapping as a function `String → Option π`,
where `π` is the type of predicate representations: the operations `update`
(used by `redefine_many`) and `evolver`-with-`del` (used by `remove_many`)
are modelled by the corresponding pure functional updates, which is faithful
because a pmap is a persistent structure whose update operations return new
maps and never mutate the receiver.

Predicates in Python are callables taking `(checker, instance)`.  Since a
predicate receives the registry itself — whose mapping in turn stores
predicates — a direct function embedding would be circularly typed, so the
registry is parametric in a predicate-representation type `π` and `is_type`
receives an application function `app : π → TypeChecker π → JValue → Bool`
modelling the call `fn(self, instance)`.  The built-in predicates are the
enumeration `Fn` applied by `appFn`.
-/

/-- The universe of runtime values the predicates inspect: the Python/JSON
values relevant to `_types.py` (`None`, `bool`, `int`/`long`, `float`, `str`,
`list`, `dict`).  In Python `bool` is a subtype of `int`; here they are
separate constructors, and the embedded predicates perform the same
`isinstance(instance, bool)` test first, exactly as the source does, so the
observable classification coincides. -/
inductive JValue : Type where
  | null : JValue
  | bool : Bool → JValue
  | int : Int → JValue
  | float : Rat → JValue
  | str : String → JValue
  | arr : List JValue → JValue
  | obj : List (String × JValue) → JValue

/-- `jsonschema.exceptions.UndefinedTypeCheck`: the single error kind, carrying
the offending type name. -/
structure UndefinedTypeCheck : Type where
  type : String
  deriving DecidableEq

/-- The frozen `attr` class `TypeChecker`: one field, the pmap
`_type_checkers`, embedded as a lookup function. -/
structure TypeChecker (π : Type) : Type where
  _type_checkers : String → Option π

/-- `pmap.update(definitions)` / dict iteration: apply each binding of the
list in order, later bindings overwriting earlier ones (a Python dict has
unique keys; `dict.update` overwrites existing keys). -/
def updateMap {π : Type} (m : String → Option π) (defs : List (String × π)) :
    String → Option π :=
  defs.foldl (fun acc kv => fun k => if k = kv.1 then some kv.2 else acc k) m

/-- `TypeChecker(initial)`: construction from an initial name→predicate
mapping, converted to a pmap (`convert=pyrsistent.pmap`). -/
def mkChecker {π : Type} (defs : List (String × π)) : TypeChecker π :=
  ⟨updateMap (fun _ => none) defs⟩

/-- `TypeChecker.is_type(self, instance, type)`: look the name up in
`self._type_checkers`; on `KeyError` raise `UndefinedTypeCheck(type)`,
otherwise return `fn(self, instance)` (the call is rendered by `app`). -/
def TypeChecker.is_type {π : Type} (app : π → TypeChecker π → JValue → Bool)
    (self : TypeChecker π) (inst : JValue) (ty : String) :
    Except UndefinedTypeCheck Bool :=
  match self._type_checkers ty with
  | none => Except.error ⟨ty⟩
  | some fn => Except.ok (app fn self inst)

/-- `TypeChecker.redefine_many(self, definitions)`:
`attr.evolve(self, type_checkers=self._type_checkers.update(definitions))`. -/
def TypeChecker.redefine_many {π : Type} (self : TypeChecker π)
    (definitions : List (String × π)) : TypeChecker π :=
  ⟨updateMap self._type_checkers definitions⟩

/-- `TypeChecker.redefine(self, type, fn)`: literally
`self.redefine_many({type: fn})`. -/
def TypeChecker.redefine {π : Type} (self : TypeChecker π) (ty : String)
    (fn : π) : TypeChecker π :=
  self.redefine_many [(ty, fn)]

/-- One `del evolver[type_]` step: `KeyError` (here `none`) when the key is
absent, otherwise the map without that key. -/
def deleteKey {π : Type} (m : String → Option π) (k : String) :
    Option (String → Option π) :=
  match m k with
  | none => none
  | some _ => some (fun q => if q = k then none else m q)

/-- The loop body of `remove_many`: iterate over `types`, deleting each from
the working copy (`evolver`); the first failing deletion raises
`UndefinedTypeCheck(type_)`. -/
def removeLoop {π : Type} (m : String → Option π) :
    List String → Except UndefinedTypeCheck (String → Option π)
  | [] => Except.ok m
  | t :: ts =>
    match deleteKey m t with
    | none => Except.error ⟨t⟩
    | some m2 => removeLoop m2 ts

/-- `TypeChecker.remove_many(self, types)`: run the deletion loop on an
evolver of `self._type_checkers` and, on success,
`attr.evolve(self, type_checkers=evolver.persistent())`. -/
def TypeChecker.remove_many {π : Type} (self : TypeChecker π)
    (types : List String) : Except UndefinedTypeCheck (TypeChecker π) :=
  (removeLoop self._type_checkers types).map TypeChecker.mk

/-- `TypeChecker.remove(self, type)`: literally `self.remove_many((type,))`. -/
def TypeChecker.remove {π : Type} (self : TypeChecker π) (ty : String) :
    Except UndefinedTypeCheck (TypeChecker π) :=
  self.remove_many [ty]

/-- Names for the eight built-in predicate functions of `_types.py`. -/
inductive Fn : Type where
  | any : Fn
  | array : Fn
  | boolean : Fn
  | integer : Fn
  | object : Fn
  | null : Fn
  | number : Fn
  | string : Fn
  deriving DecidableEq

/-- `is_array(checker, instance) = isinstance(instance, list)`. -/
def is_array (checker : TypeChecker Fn) (inst : JValue) : Bool :=
  match inst with
  | JValue.arr _ => true
  | _ => false

/-- `is_bool(checker, instance) = isinstance(instance, bool)`. -/
def is_bool (checker : TypeChecker Fn) (inst : JValue) : Bool :=
  match inst with
  | JValue.bool _ => true
  | _ => false

/-- `is_integer`: bools are rejected first (bool inherits from int in
Python), then `isinstance(instance, int_types)`. -/
def is_integer (checker : TypeChecker Fn) (inst : JValue) : Bool :=
  match inst with
  | JValue.bool _ => false
  | JValue.int _ => true
  | _ => false

/-- `is_null(checker, instance) = instance is None`. -/
def is_null (checker : TypeChecker Fn) (inst : JValue) : Bool :=
  match inst with
  | JValue.null => true
  | _ => false

/-- `is_number`: bools are rejected first, then
`isinstance(instance, numbers.Number)` (ints and floats). -/
def is_number (checker : TypeChecker Fn) (inst : JValue) : Bool :=
  match inst with
  | JValue.bool _ => false
  | JValue.int _ => true
  | JValue.float _ => true
  | _ => false

/-- `is_object(checker, instance) = isinstance(instance, dict)`. -/
def is_object (checker : TypeChecker Fn) (inst : JValue) : Bool :=
  match inst with
  | JValue.obj _ => true
  | _ => false

/-- `is_string(checker, instance) = isinstance(instance, str_types)`. -/
def is_string (checker : TypeChecker Fn) (inst : JValue) : Bool :=
  match inst with
  | JValue.str _ => true
  | _ => false

/-- `is_any(checker, instance) = True`. -/
def is_any (checker : TypeChecker Fn) (inst : JValue) : Bool :=
  true

/-- Application of a built-in predicate name: dispatch to the source
function it denotes. -/
def appFn : Fn → TypeChecker Fn → JValue → Bool
  | Fn.any => is_any
  | Fn.array => is_array
  | Fn.boolean => is_bool
  | Fn.integer => is_integer
  | Fn.object => is_object
  | Fn.null => is_null
  | Fn.number => is_number
  | Fn.string => is_string

/-- `draft3_type_checker = TypeChecker({...})` with the eight built-ins. -/
def draft3_type_checker : TypeChecker Fn :=
  mkChecker
    [("any", Fn.any), ("array", Fn.array), ("boolean", Fn.boolean),
     ("integer", Fn.integer), ("object", Fn.object), ("null", Fn.null),
     ("number", Fn.number), ("string", Fn.string)]

/-- `draft4_type_checker = draft3_type_checker.remove(u"any")`.  The source's
module-level assignment would propagate the exception; since `"any"` is
present in the draft3 mapping the removal succeeds, so the error branch here
is unreachable (see `draft3_remove_any_ok`). -/
def draft4_type_checker : TypeChecker Fn :=
  match draft3_type_checker.remove "any" with
  | Except.ok r => r
  | Except.error _ => draft3_type_checker

/-- Spec-side reading (§4.1, row "array"): value is a sequence container. -/
def seq_container (v : JValue) : Bool :=
  match v with
  | JValue.arr _ => true
  | _ => false

/-- Spec-side reading (§4.1): value is a key/value mapping. -/
def mapping_value (v : JValue) : Bool :=
  match v with
  | JValue.obj _ => true
  | _ => false

/-- Spec-side reading (§4.1): value is a textual/string type. -/
def string_value (v : JValue) : Bool :=
  match v with
  | JValue.str _ => true
  | _ => false

/-- Modelled from the spec's words (§4.1, row "array"), for comparison with
the source predicate: "value is a sequence container (list-like), not a
mapping or string". -/
def spec_array (v : JValue) : Bool :=
  seq_container v && !(mapping_value v || string_value v)

/-- A caller-supplied predicate vocabulary exercising the contract of §3:
"a predicate may recursively consult other entries".  `delegate` is a
predicate that forwards to whatever predicate the registry it is invoked
from currently stores under the name `"bar"`; the other two are ordinary
registry-independent checks. -/
inductive Fn2 : Type where
  | delegate : Fn2
  | strCheck : Fn2
  | intCheck : Fn2
  deriving DecidableEq

/-- Registry-independent meaning of the non-delegating `Fn2` predicates. -/
def evalBase : Fn2 → JValue → Bool
  | Fn2.strCheck, v =>
    match v with
    | JValue.str _ => true
    | _ => false
  | Fn2.intCheck, v =>
    match v with
    | JValue.int _ => true
    | _ => false
  | Fn2.delegate, _ => false

/-- Application function for `Fn2`: `delegate` consults the registry it is
called with (the first argument Python passes to every predicate) and runs
the predicate that registry stores under `"bar"`. -/
def app2 : Fn2 → TypeChecker Fn2 → JValue → Bool
  | Fn2.delegate, c, v =>
    match c._type_checkers "bar" with
    | some g => evalBase g v
    | none => false
  | g, _, v => evalBase g v

lemma draft3_remove_any_ok :
    draft3_type_checker.remove "any" = Except.ok draft4_type_checker := rfl

lemma appFn_checker_irrelevant (fn : Fn) (c1 c2 : TypeChecker Fn) (v : JValue) :
    appFn fn c1 v = appFn fn c2 v := by
  cases fn <;> rfl

lemma updateMap_cons {π : Type} (m : String → Option π) (kv : String × π)
    (d : List (String × π)) :
    updateMap m (kv :: d)
      = updateMap (fun q => if q = kv.1 then some kv.2 else m q) d := rfl

lemma updateMap_not_mem {π : Type} (d : List (String × π)) (m : String → Option π)
    (k : String) (h : k ∉ d.map Prod.fst) : updateMap m d k = m k := by
  induction d generalizing m with
  | nil => rfl
  | cons kv d ih =>
    simp only [List.map_cons, List.mem_cons] at h
    push_neg at h
    rw [updateMap_cons, ih _ h.2]
    simp [h.1]

lemma updateMap_mem_nodup {π : Type} (d : List (String × π)) (m : String → Option π)
    (k : String) (f : π) (hnd : (d.map Prod.fst).Nodup) (h : (k, f) ∈ d) :
    updateMap m d k = some f := by
  induction d generalizing m with
  | nil => cases h
  | cons kv d ih =>
    rw [updateMap_cons]
    rcases List.mem_cons.mp h with h1 | h1
    · cases h1
      have hk : k ∉ d.map Prod.fst := by
        simpa using (List.nodup_cons.mp hnd).1
      rw [updateMap_not_mem _ _ _ hk]
      simp
    · exact ih _ (List.nodup_cons.mp hnd).2 h1

lemma deleteKey_eq_none {π : Type} (m : String → Option π) (k : String)
    (h : m k = none) : deleteKey m k = none := by
  unfold deleteKey
  rw [h]

lemma deleteKey_eq_some {π : Type} (m : String → Option π) (k : String) (f : π)
    (h : m k = some f) :
    deleteKey m k = some (fun q => if q = k then none else m q) := by
  unfold deleteKey
  rw [h]

lemma removeLoop_absent_error {π : Type} (ts : List String)
    (m : String → Option π) (h : ∃ t ∈ ts, m t = none) :
    ∃ t ∈ ts, removeLoop m ts = Except.error ⟨t⟩ := by
  induction ts generalizing m with
  | nil =>
    rcases h with ⟨t, ht, _⟩
    cases ht
  | cons a ts ih =>
    cases hma : m a with
    | none =>
      refine ⟨a, List.mem_cons_self a ts, ?_⟩
      simp only [removeLoop]
      rw [deleteKey_eq_none m a hma]
    | some f =>
      rcases h with ⟨t, ht, hmt⟩
      have hta : t ≠ a := by
        rintro rfl
        rw [hma] at hmt
        cases hmt
      have ht' : t ∈ ts := by
        rcases List.mem_cons.mp ht with h1 | h1
        · exact absurd h1 hta
        · exact h1
      have h2 : ∃ u ∈ ts, (fun q => if q = a then none else m q) u = none :=
        ⟨t, ht', by simp [hta, hmt]⟩
      rcases ih _ h2 with ⟨u, hu, hrl⟩
      refine ⟨u, List.mem_cons_of_mem _ hu, ?_⟩
      simp only [removeLoop]
      rw [deleteKey_eq_some m a f hma]
      exact hrl

lemma removeLoop_ok_isSome {π : Type} (ts : List String) (m m2 : String → Option π)
    (h : removeLoop m ts = Except.ok m2) : ∀ u ∈ ts, (m u).isSome := by
  induction ts generalizing m with
  | nil =>
    intro u hu
    cases hu
  | cons a ts ih =>
    intro u hu
    cases hma : m a with
    | none =>
      simp only [removeLoop] at h
      rw [deleteKey_eq_none m a hma] at h
      cases h
    | some f =>
      simp only [removeLoop] at h
      rw [deleteKey_eq_some m a f hma] at h
      rcases List.mem_cons.mp hu with h1 | h1
      · subst h1
        rw [hma]
        rfl
      · by_cases hua : u = a
        · subst hua
          rw [hma]
          rfl
        · have := ih _ h u h1
          simpa [hua] using this

lemma removeLoop_ok_nodup {π : Type} (ts : List String) (m m2 : String → Option π)
    (h : removeLoop m ts = Except.ok m2) : ts.Nodup := by
  induction ts generalizing m with
  | nil => exact List.nodup_nil
  | cons a ts ih =>
    cases hma : m a with
    | none =>
      simp only [removeLoop] at h
      rw [deleteKey_eq_none m a hma] at h
      cases h
    | some f =>
      simp only [removeLoop] at h
      rw [deleteKey_eq_some m a f hma] at h
      refine List.nodup_cons.mpr ⟨?_, ih _ h⟩
      intro hmem
      have := removeLoop_ok_isSome ts _ m2 h a hmem
      simp at this

lemma removeLoop_error_mem {π : Type} (ts : List String) (m : String → Option π)
    (e : UndefinedTypeCheck) (h : removeLoop m ts = Except.error e) :
    e.type ∈ ts := by
  induction ts generalizing m with
  | nil => cases h
  | cons a ts ih =>
    cases hd : deleteKey m a with
    | none =>
      simp only [removeLoop, hd] at h
      injection h with h2
      rw [← h2]
      exact List.mem_cons_self a ts
    | some m3 =>
      simp only [removeLoop, hd] at h
      exact List.mem_cons_of_mem a (ih _ h)

lemma TypeChecker.ext_map {π : Type} (a b : TypeChecker π)
    (h : a._type_checkers = b._type_checkers) : a = b := by
  cases a
  cases b
  cases h
  rfl

/-- C2: `is_type(value, type_name)` raises `UndefinedTypeCheck(type_name)`
exactly when `type_name` is absent from the mapping; any raised error
carries `type_name`; and when the name is present the result is precisely
the mapped predicate applied to `(this registry, value)` — no other failure
mode. -/
theorem is_type_characterization (π : Type)
    (app : π → TypeChecker π → JValue → Bool)
    (r : TypeChecker π) (v : JValue) (ty : String) :
    (TypeChecker.is_type app r v ty = Except.error ⟨ty⟩
        ↔ r._type_checkers ty = none)
  ∧ (∀ e, TypeChecker.is_type app r v ty = Except.error e → e = ⟨ty⟩)
  ∧ (∀ fn, r._type_checkers ty = some fn →
      TypeChecker.is_type app r v ty = Except.ok (app fn r v)) := by
  cases hl : r._type_checkers ty with
  | none =>
    have hv : TypeChecker.is_type app r v ty = Except.error ⟨ty⟩ := by
      unfold TypeChecker.is_type
      rw [hl]
    refine ⟨by simp [hv, hl], ?_, ?_⟩
    · intro e he
      rw [hv] at he
      injection he with h2
      exact h2.symm
    · intro fn hfn
      cases hfn
  | some g =>
    have hv : TypeChecker.is_type app r v ty = Except.ok (app g r v) := by
      unfold TypeChecker.is_type
      rw [hl]
    refine ⟨⟨?_, ?_⟩, ?_, ?_⟩
    · intro he
      rw [hv] at he
      cases he
    · intro hn
      cases hn
    · intro e he
      rw [hv] at he
      cases he
    · intro fn hfn
      injection hfn with h2
      rw [hv, h2]

/-- Witness for `is_type_characterization` at a concrete registry: on the
draft3 preset, `"boolean"` is mapped, and checking `null` against it returns
the predicate's value `false`. -/
theorem is_type_characterization_witness :
    TypeChecker.is_type appFn draft3_type_checker JValue.null "boolean"
      = Except.ok false :=
  (is_type_characterization Fn appFn draft3_type_checker JValue.null
    "boolean").2.2 Fn.boolean rfl

/-- C3: on any registry mapping the built-in names to the built-in
predicates, every (non-boolean) integral value is both an `"integer"` and a
`"number"`, while booleans are neither, but are `"boolean"`. -/
theorem builtin_numeric_types (r : TypeChecker Fn)
    (hi : r._type_checkers "integer" = some Fn.integer)
    (hn : r._type_checkers "number" = some Fn.number)
    (hb : r._type_checkers "boolean" = some Fn.boolean) :
    (∀ n : Int,
        TypeChecker.is_type appFn r (JValue.int n) "integer" = Except.ok true
      ∧ TypeChecker.is_type appFn r (JValue.int n) "number" = Except.ok true)
  ∧ (∀ b : Bool,
        TypeChecker.is_type appFn r (JValue.bool b) "integer" = Except.ok false
      ∧ TypeChecker.is_type appFn r (JValue.bool b) "number" = Except.ok false
      ∧ TypeChecker.is_type appFn r (JValue.bool b) "boolean" = Except.ok true)
    := by
  constructor
  · intro n
    constructor
    · unfold TypeChecker.is_type
      rw [hi]
      rfl
    · unfold TypeChecker.is_type
      rw [hn]
      rfl
  · intro b
    refine ⟨?_, ?_, ?_⟩
    · unfold TypeChecker.is_type
      rw [hi]
      rfl
    · unfold TypeChecker.is_type
      rw [hn]
      rfl
    · unfold TypeChecker.is_type
      rw [hb]
      rfl

/-- Witness for `builtin_numeric_types` on the draft3 preset with the
integer 2 and the boolean `true`. -/
theorem builtin_numeric_types_witness :
    TypeChecker.is_type appFn draft3_type_checker (JValue.int 2) "integer"
        = Except.ok true
  ∧ TypeChecker.is_type appFn draft3_type_checker (JValue.int 2) "number"
        = Except.ok true
  ∧ TypeChecker.is_type appFn draft3_type_checker (JValue.bool true) "integer"
        = Except.ok false
  ∧ TypeChecker.is_type appFn draft3_type_checker (JValue.bool true) "number"
        = Except.ok false
  ∧ TypeChecker.is_type appFn draft3_type_checker (JValue.bool true) "boolean"
        = Except.ok true := by
  have h := builtin_numeric_types draft3_type_checker rfl rfl rfl
  exact ⟨(h.1 2).1, (h.1 2).2, (h.2 true).1, (h.2 true).2.1, (h.2 true).2.2⟩

/-- C7: `redefine` is the singleton batch: it returns exactly
`redefine_many({type_name: predicate})`, its result maps `type_name` to the
new predicate whether or not it existed before, and it has no error path
(it is a total function). -/
theorem redefine_eq_singleton_redefine_many (π : Type) (r : TypeChecker π)
    (t : String) (f : π) :
    r.redefine t f = r.redefine_many [(t, f)]
  ∧ ∀ k, (r.redefine t f)._type_checkers k
      = if k = t then some f else r._type_checkers k :=
  ⟨rfl, fun k => rfl⟩

/-- C8: on both preset registries, `is_type(v, "array")` returns exactly the
spec's membership rule — `v` is a sequence container and neither a mapping
nor a string; in particular mappings and strings are never accepted. -/
theorem array_predicate_matches_spec :
    ∀ v : JValue,
      TypeChecker.is_type appFn draft3_type_checker v "array"
          = Except.ok (spec_array v)
    ∧ TypeChecker.is_type appFn draft4_type_checker v "array"
          = Except.ok (spec_array v) := by
  intro v
  cases v <;> exact ⟨rfl, rfl⟩

/-- C9: `redefine` is idempotent — installing the same predicate twice under
the same name yields the very same registry, hence `is_type` is unchanged
for every value and every name. -/
theorem redefine_idempotent (π : Type)
    (app : π → TypeChecker π → JValue → Bool)
    (r : TypeChecker π) (t : String) (f : π) :
    (r.redefine t f).redefine t f = r.redefine t f
  ∧ ∀ (v : JValue) (n : String),
      TypeChecker.is_type app ((r.redefine t f).redefine t f) v n
        = TypeChecker.is_type app (r.redefine t f) v n := by
  have hmap : ((r.redefine t f).redefine t f)._type_checkers
      = (r.redefine t f)._type_checkers := by
    funext k
    show (if k = t then some f else if k = t then some f else r._type_checkers k)
        = if k = t then some f else r._type_checkers k
    by_cases hk : k = t <;> simp [hk]
  have h := TypeChecker.ext_map _ _ hmap
  exact ⟨h, fun v n => by rw [h]⟩

lemma removeLoop_cons_none {π : Type} (m : String → Option π) (a : String)
    (ts : List String) (h : deleteKey m a = none) :
    removeLoop m (a :: ts) = Except.error ⟨a⟩ := by
  simp only [removeLoop, h]

lemma removeLoop_cons_some {π : Type} (m m2 : String → Option π) (a : String)
    (ts : List String) (h : deleteKey m a = some m2) :
    removeLoop m (a :: ts) = removeLoop m2 ts := by
  simp only [removeLoop, h]

/-- C1 (amended): `remove_many` is all-or-nothing — whenever some name of
`ts` is absent from the receiver's mapping, the call returns
`UndefinedTypeCheck` carrying a name from `ts` (the first whose deletion
from the working copy fails) and no new registry; the receiver, being a
persistent value, keeps its full mapping. -/
theorem remove_many_all_or_nothing (π : Type) (r : TypeChecker π)
    (ts : List String) (h : ∃ t ∈ ts, r._type_checkers t = none) :
    ∃ t ∈ ts, r.remove_many ts = Except.error ⟨t⟩ := by
  rcases removeLoop_absent_error ts r._type_checkers h with ⟨t, ht, hrl⟩
  refine ⟨t, ht, ?_⟩
  unfold TypeChecker.remove_many
  rw [hrl]
  rfl

/-- Witness for `remove_many_all_or_nothing`: removing the unknown name
`"nope"` from the draft3 preset fails with an error naming a member of the
request. -/
theorem remove_many_all_or_nothing_witness :
    ∃ t ∈ (["nope"] : List String),
      draft3_type_checker.remove_many ["nope"] = Except.error ⟨t⟩ :=
  remove_many_all_or_nothing Fn draft3_type_checker ["nope"]
    ⟨"nope", by decide, rfl⟩

/-- C1 counterexample: on the draft3 preset with the collection
`["any", "any", "nope"]`, the name `"nope"` is absent, yet the raised error
carries `"any"` — a name that IS in the receiver's mapping (its second
occurrence finds the working copy already lacking it).  So the error does
not carry "that (absent) name". -/
theorem remove_many_error_name_counterexample :
    ("nope" ∈ (["any", "any", "nope"] : List String)
      ∧ draft3_type_checker._type_checkers "nope" = none)
  ∧ draft3_type_checker.remove_many ["any", "any", "nope"]
      = Except.error ⟨"any"⟩
  ∧ draft3_type_checker._type_checkers "any" = some Fn.any
  ∧ ¬ ∃ t ∈ (["any", "any", "nope"] : List String),
        draft3_type_checker._type_checkers t = none
      ∧ draft3_type_checker.remove_many ["any", "any", "nope"]
          = Except.error ⟨t⟩ := by
  refine ⟨⟨by decide, rfl⟩, rfl, rfl, ?_⟩
  rintro ⟨t, ht, habs, herr⟩
  have h0 : draft3_type_checker.remove_many ["any", "any", "nope"]
      = Except.error ⟨"any"⟩ := rfl
  rw [h0] at herr
  injection herr with h2
  have h3 : t = "any" := (congrArg UndefinedTypeCheck.type h2).symm
  rw [h3] at habs
  exact absurd habs (by decide)

/-- C4: update operations never affect the receiver.  The derived registry
`r.redefine name f` answers `name` with `f`; the receiver's own `is_type`
on `name` is still determined solely by the receiver's unchanged mapping —
the original predicate's result when `name` was mapped, and
`UndefinedTypeCheck(name)` when it was absent.  (All four update operations
are pure functions of the receiver: the mapping is a persistent value, so
non-mutation of `r` holds by construction of the embedding, exactly as the
frozen `attr` class over a `pyrsistent` pmap guarantees in the source.) -/
theorem update_ops_preserve_receiver (π : Type)
    (app : π → TypeChecker π → JValue → Bool)
    (r : TypeChecker π) (name : String) (f : π) (v : JValue) :
    TypeChecker.is_type app (r.redefine name f) v name
      = Except.ok (app f (r.redefine name f) v)
  ∧ (∀ g, r._type_checkers name = some g →
      TypeChecker.is_type app r v name = Except.ok (app g r v))
  ∧ (r._type_checkers name = none →
      TypeChecker.is_type app r v name = Except.error ⟨name⟩) := by
  refine ⟨?_, ?_, ?_⟩
  · have hl : (r.redefine name f)._type_checkers name = some f := by
      show (if name = name then some f else r._type_checkers name) = some f
      simp
    unfold TypeChecker.is_type
    rw [hl]
  · intro g hg
    unfold TypeChecker.is_type
    rw [hg]
  · intro hnone
    unfold TypeChecker.is_type
    rw [hnone]

/-- Witness for `update_ops_preserve_receiver`: after redefining `"string"`
on the draft3 preset the receiver still classifies `"a"` as a string via
the original predicate. -/
theorem update_ops_preserve_receiver_witness :
    TypeChecker.is_type appFn (draft3_type_checker.redefine "string" Fn.any)
        (JValue.str "a") "string" = Except.ok true
  ∧ TypeChecker.is_type appFn draft3_type_checker (JValue.str "a") "string"
      = Except.ok true := by
  have h := update_ops_preserve_receiver Fn appFn draft3_type_checker
      "string" Fn.any (JValue.str "a")
  exact ⟨h.1, h.2.1 Fn.string rfl⟩

/-- C5: the draft4 preset is the draft3 preset with `"any"` removed — it
raises `UndefinedTypeCheck("any")` for every value, and behaves exactly as
draft3 does on every other name. -/
theorem draft4_is_draft3_without_any :
    (∀ v, TypeChecker.is_type appFn draft4_type_checker v "any"
        = Except.error ⟨"any"⟩)
  ∧ (∀ t, t ≠ "any" → ∀ v,
      TypeChecker.is_type appFn draft4_type_checker v t
        = TypeChecker.is_type appFn draft3_type_checker v t) := by
  have hd4 : draft4_type_checker._type_checkers
      = fun k => if k = "any" then none
          else draft3_type_checker._type_checkers k := rfl
  constructor
  · intro v
    rfl
  · intro t ht v
    unfold TypeChecker.is_type
    simp only [hd4]
    rw [if_neg ht]
    cases hc : draft3_type_checker._type_checkers t with
    | none => rfl
    | some fn =>
      show Except.ok (appFn fn draft4_type_checker v)
          = Except.ok (appFn fn draft3_type_checker v)
      rw [appFn_checker_irrelevant fn draft4_type_checker draft3_type_checker v]

/-- Witness for `draft4_is_draft3_without_any` at `"boolean"` and a null
value for the `"any"` part. -/
theorem draft4_is_draft3_without_any_witness :
    TypeChecker.is_type appFn draft4_type_checker JValue.null "any"
        = Except.error ⟨"any"⟩
  ∧ TypeChecker.is_type appFn draft4_type_checker (JValue.bool true) "boolean"
      = TypeChecker.is_type appFn draft3_type_checker (JValue.bool true)
          "boolean" :=
  ⟨draft4_is_draft3_without_any.1 JValue.null,
   draft4_is_draft3_without_any.2 "boolean" (by decide) (JValue.bool true)⟩

/-- C6 (amended): `redefine_many` maps every batch entry to its supplied
predicate and every other name exactly as the receiver does; consequently,
for names outside the batch `is_type` on the derived registry agrees with
the receiver whenever the installed predicates do not consult the registry
argument (true of all built-ins; a registry-consulting predicate can
observe the difference, see the counterexample). -/
theorem redefine_many_frame (π : Type)
    (app : π → TypeChecker π → JValue → Bool)
    (r : TypeChecker π) (d : List (String × π))
    (hnd : (d.map Prod.fst).Nodup)
    (hirr : ∀ fn c1 c2 w, app fn c1 w = app fn c2 w) :
    (∀ kf ∈ d, (r.redefine_many d)._type_checkers kf.1 = some kf.2)
  ∧ (∀ k, k ∉ d.map Prod.fst →
      (r.redefine_many d)._type_checkers k = r._type_checkers k)
  ∧ (∀ k, k ∉ d.map Prod.fst → ∀ v,
      TypeChecker.is_type app (r.redefine_many d) v k
        = TypeChecker.is_type app r v k) := by
  refine ⟨?_, ?_, ?_⟩
  · rintro ⟨k, f⟩ hkf
    exact updateMap_mem_nodup d r._type_checkers k f hnd hkf
  · intro k hk
    exact updateMap_not_mem d r._type_checkers k hk
  · intro k hk v
    have hm : (r.redefine_many d)._type_checkers k = r._type_checkers k :=
      updateMap_not_mem d r._type_checkers k hk
    unfold TypeChecker.is_type
    rw [hm]
    cases hc : r._type_checkers k with
    | none => rfl
    | some g =>
      show Except.ok (app g (r.redefine_many d) v) = Except.ok (app g r v)
      rw [hirr g (r.redefine_many d) r v]

/-- Witness for `redefine_many_frame`: redefining only `"boolean"` on the
draft3 preset installs the new predicate there and leaves `"string"`
behaving as before. -/
theorem redefine_many_frame_witness :
    (draft3_type_checker.redefine_many [("boolean", Fn.any)])._type_checkers
        "boolean" = some Fn.any
  ∧ TypeChecker.is_type appFn
        (draft3_type_checker.redefine_many [("boolean", Fn.any)])
        (JValue.str "x") "string"
      = TypeChecker.is_type appFn draft3_type_checker (JValue.str "x")
          "string" := by
  have h := redefine_many_frame Fn appFn draft3_type_checker
      [("boolean", Fn.any)] (by decide) appFn_checker_irrelevant
  exact ⟨h.1 ("boolean", Fn.any) (by decide),
         h.2.2 "string" (by decide) (JValue.str "x")⟩

/-- C6 counterexample: with a registry-consulting predicate — which the
predicate contract explicitly permits — redefining only `"bar"` changes the
observable behaviour of `"foo"`, a name outside the batch: the receiver
says `"x"` is a `"foo"` (it delegates to the string check stored under
`"bar"`), while the derived registry says it is not (its `"bar"` now holds
the integer check). -/
theorem redefine_many_frame_counterexample :
    ("foo" ∉ ([("bar", Fn2.intCheck)].map Prod.fst))
  ∧ TypeChecker.is_type app2
        ((mkChecker [("foo", Fn2.delegate), ("bar", Fn2.strCheck)]).redefine_many
          [("bar", Fn2.intCheck)])
        (JValue.str "x") "foo"
      = Except.ok false
  ∧ TypeChecker.is_type app2
        (mkChecker [("foo", Fn2.delegate), ("bar", Fn2.strCheck)])
        (JValue.str "x") "foo"
      = Except.ok true :=
  ⟨by decide, rfl, rfl⟩

/-- C10: on a registry where `t` is present, `remove_many([t, t])` raises
`UndefinedTypeCheck(t)` and returns no registry — the first iteration
deletes `t` from the working copy, the second finds it already gone.  More
generally, any collection listing `t` at least twice makes `remove_many`
fail with an error naming some element of the collection. -/
theorem remove_many_duplicate_errors (π : Type) (r : TypeChecker π)
    (t : String) (f : π) (h : r._type_checkers t = some f) :
    r.remove_many [t, t] = Except.error ⟨t⟩
  ∧ ∀ ts : List String, 2 ≤ ts.count t →
      ∃ e, r.remove_many ts = Except.error e ∧ e.type ∈ ts := by
  constructor
  · unfold TypeChecker.remove_many
    rw [removeLoop_cons_some _ _ _ _ (deleteKey_eq_some r._type_checkers t f h)]
    rw [removeLoop_cons_none _ _ _ (deleteKey_eq_none _ t (by simp))]
    rfl
  · intro ts hc
    cases hres : removeLoop r._type_checkers ts with
    | ok m2 =>
      have hnd := removeLoop_ok_nodup ts r._type_checkers m2 hres
      have hle := List.nodup_iff_count_le_one.mp hnd t
      omega
    | error e =>
      refine ⟨e, ?_, removeLoop_error_mem ts r._type_checkers e hres⟩
      unfold TypeChecker.remove_many
      rw [hres]
      rfl

/-- Witness for `remove_many_duplicate_errors`: removing `"any"` twice from
the draft3 preset (where it is present) fails, naming `"any"`. -/
theorem remove_many_duplicate_errors_witness :
    draft3_type_checker.remove_many ["any", "any"] = Except.error ⟨"any"⟩ :=
  (remove_many_duplicate_errors Fn draft3_type_checker "any" Fn.any rfl).1
